import Mathlib

/-!
Shallow embedding of `hphp/runtime/vm/resumable.h` (struct `Resumable`):
the resumable execution frame used by HHVM for async functions and
generators.  Machine integers are modelled on `Nat`/`Int` with explicit
`% 2^32` / `% 2^64` where C integer width and conversions matter.
Pointer arithmetic is modelled on `Nat` byte addresses.
-/

namespace ResumableModel

/-! ### Machine-integer helpers (uint64 / int32 semantics) -/

/-- Low 32 bits of a 64-bit word (the `m_resumeOffset` union member on a
little-endian target). -/
def lo32 (w : Nat) : Nat := w % 2 ^ 32

/-- High 32 bits of a 64-bit word (the `m_size` union member on a
little-endian target). -/
def hi32 (w : Nat) : Nat := w / 2 ^ 32 % 2 ^ 32

/-- Reinterpret 32 bits as a signed `int32_t` value. -/
def int32OfBits (n : Nat) : Int :=
  if n % 2 ^ 32 < 2 ^ 31 then (n % 2 ^ 32 : Int) else (n % 2 ^ 32 : Int) - 2 ^ 32

/-- C conversion `int32_t -> size_t`: sign-extend, then reduce modulo `2^64`. -/
def sizeTOfInt32 (i : Int) : Nat := (i % (2 : Int) ^ 64).toNat

/-- The packed header word written by `Create`:
`resumable->m_offsetAndSize = (totalSize << 32 | resumeOffset)`, a `uint64_t`.
`resumeOffset` is an `int32_t` that is non-negative under the
`func->contains(resumeOffset)` assertion, so its `uint64_t` image is itself. -/
def packOffsetAndSize (totalSize resumeOffset : Nat) : Nat :=
  (totalSize <<< 32 ||| resumeOffset) % 2 ^ 64

/-! ### External collaborators, modelled from the spec

`Func`, `ActRec`, `TypedValue` and `ResumableNode` are declared in headers
outside this repository snapshot (`func.h`, `bytecode.h`,
`memory-manager.h`); only the parts `resumable.h` reads or writes are
modelled, following the spec's description of the calling-convention
boundary. -/

/-- Modelled from the spec: the compiled-function metadata the core reads —
bytecode bounds (`Func::contains`), the "is resumable" flag
(`Func::isResumable`) and the `AttrMayUseVV` attribute bit of
`Func::attrs()`. -/
structure Func where
  base : Nat
  past : Nat
  isResumable : Bool
  mayUseVV : Bool
  deriving DecidableEq, Repr

/-- Modelled from the spec: `Func::contains(offset)` — the offset lies within
the function's bytecode bounds. -/
def Func.contains (f : Func) (o : Nat) : Prop := f.base ≤ o ∧ o < f.past

instance (f : Func) (o : Nat) : Decidable (f.contains o) :=
  inferInstanceAs (Decidable (f.base ≤ o ∧ o < f.past))

/-- Modelled from the spec: the fixed-size Activation Record.  Its first two
fields, `m_sfp` (saved caller frame pointer) and `m_savedRip` (saved return
address), are the call linkage that precedes `m_func`; the clone path of
`Create` copies only the fields from `m_func` onward
(`offsetof(ActRec, m_func)`).  The suspended flag lives in the
flag bits after `m_func`; `m_varEnv` holds the optional fallback
dynamic-scope store. -/
structure ActRec where
  sfp : Nat
  savedRip : Nat
  func : Func
  soff : Nat
  resumed : Bool
  thisOrCls : Nat
  varEnv : Option Nat
  deriving DecidableEq, Repr

/-- Source: `ActRec::setResumed()`: set the suspended flag. -/
def ActRec.setResumed (a : ActRec) : ActRec := { a with resumed := true }

/-- The clone-path copy
`wordcpy(aRec + offset, src + offset, sizeof(ActRec) - offset)` with
`offset = offsetof(ActRec, m_func)`: every field from `m_func` onward is
taken from `src`; the two linkage fields keep the destination's bytes. -/
def ActRec.copyFromFuncOn (dst src : ActRec) : ActRec :=
  { dst with
    func := src.func
    soff := src.soff
    resumed := src.resumed
    thisOrCls := src.thisOrCls
    varEnv := src.varEnv }

/-- A live caller frame: the `fp` argument of `Create` together with the
locals/iterator region of `frameSize` bytes that sits below it on the
stack (`(uintptr_t)fp - frameSize`).  Locals are modelled at slot
granularity, one list entry per `TypedValue` slot. -/
structure Frame where
  actRec : ActRec
  locals : List Nat
  deriving DecidableEq, Repr

/-- Source: `fp->hasVarEnv()`: the caller frame carries a fallback dynamic-scope
store. -/
def Frame.hasVarEnv (fp : Frame) : Bool := fp.actRec.varEnv.isSome

/-- Source: `HeaderKind` tag written into the `ResumableNode`
(`node->hdr.kind = HeaderKind::ResumableFrame`). -/
inductive HeaderKind where
  | resumableFrame
  | other
  deriving DecidableEq, Repr

/-- Byte sizes of the externally-declared types `Create` takes `sizeof` of:
`sizeof(ResumableNode)`, `sizeof(ActRec)` and `sizeof(TypedValue)`.
Modelled from the spec as symbolic parameters (the spec's
Frame-Node-size, ActivationRecord-size and slot-size). -/
structure Layout where
  nodeSize : Nat
  actRecSize : Nat
  tvSize : Nat
  deriving DecidableEq, Repr

/-- Field sizes of `struct Resumable` in declaration order: `m_actRec`
(`sizeof(ActRec)` bytes), `m_resumeAddr` (a `jit::TCA` pointer, 8 bytes),
and the anonymous `m_offsetAndSize` union (`uint64_t`, 8 bytes).
`ActRec` holds pointer-aligned fields, so no padding intervenes. -/
def Resumable.fieldSizes (L : Layout) : List Nat := [L.actRecSize, 8, 8]

/-- Source: `offsetof` for a padding-free struct given its field sizes in order. -/
def structOffset (sizes : List Nat) (i : Nat) : Nat := (sizes.take i).sum

/-- Source: `Resumable::arOff() = offsetof(Resumable, m_actRec)`. -/
def Resumable.arOff (L : Layout) : Nat := structOffset (Resumable.fieldSizes L) 0

/-- Source: `Resumable::resumeAddrOff() = offsetof(Resumable, m_resumeAddr)`. -/
def Resumable.resumeAddrOff (L : Layout) : Nat :=
  structOffset (Resumable.fieldSizes L) 1

/-- Source: `Resumable::resumeOffsetOff() = offsetof(Resumable, m_resumeOffset)`. -/
def Resumable.resumeOffsetOff (L : Layout) : Nat :=
  structOffset (Resumable.fieldSizes L) 2

/-- Source: `sizeof(Resumable)`. -/
def Layout.resumableSize (L : Layout) : Nat := (Resumable.fieldSizes L).sum

/-- The spec's "Header-size": the Resumable fields that follow the embedded
Activation Record — the resume address and the packed (offset, size)
word. -/
def Layout.headerSize (_L : Layout) : Nat := 8 + 8

/-! ### The Frame Block -/

/-- Contents of one allocated Frame Block: the `ResumableNode` fields, the
locals region, the embedded `ActRec`, and the two `Resumable` header
fields.  `offsetAndSize` is the raw `uint64_t` union word. -/
structure FrameBlock where
  nodeFramesize : Nat
  nodeKind : HeaderKind
  locals : List Nat
  actRec : ActRec
  resumeAddr : Nat
  offsetAndSize : Nat
  deriving DecidableEq, Repr

/-- The `m_resumeOffset` union member: the low 32 bits of the packed word
(non-negative as an `int32_t` under the bounds invariant). -/
def FrameBlock.m_resumeOffset (b : FrameBlock) : Nat := lo32 b.offsetAndSize

/-- The `m_size` union member: the high 32 bits of the packed word read as a
signed `int32_t`. -/
def FrameBlock.m_size (b : FrameBlock) : Int := int32OfBits (hi32 b.offsetAndSize)

/-- Source: `Resumable::size()`: `return m_size;` — the `int32_t` field converted to
`size_t` (sign-extending). -/
def FrameBlock.size (b : FrameBlock) : Nat := sizeTOfInt32 b.m_size

/-- Source: `Resumable::resumeOffset()` with its debug assertion
`assert(m_actRec.func()->contains(m_resumeOffset))` modelled as a fault:
`none` is the bounds-violation fault, `some` the returned offset. -/
def FrameBlock.resumeOffsetChecked (b : FrameBlock) : Option Nat :=
  if b.actRec.func.contains b.m_resumeOffset then some b.m_resumeOffset else none

/-- Source: `Resumable::setResumeAddr(resumeAddr, resumeOffset)` with its debug
assertion `assert(m_actRec.func()->contains(resumeOffset))` modelled as a
fault.  Stores the address and overwrites only the `m_resumeOffset`
member — the low 32 bits of the union word; `m_size` is untouched. -/
def FrameBlock.setResumeAddrChecked (b : FrameBlock) (resumeAddr resumeOffset : Nat) :
    Option FrameBlock :=
  if b.actRec.func.contains resumeOffset then
    some { b with
           resumeAddr := resumeAddr
           offsetAndSize := hi32 b.offsetAndSize * 2 ^ 32 + resumeOffset % 2 ^ 32 }
  else none

/-! ### Create and Destroy -/

/-- Observable calls `Create`/`Destroy` make to external collaborators:
`fp->getVarEnv()->suspend(fp, actRec)`, the payload destructor `obj->~T()`,
and `MM().objFree(base, size)`. -/
inductive Event where
  | varEnvSuspend (fp : Frame) (toActRec : ActRec)
  | destruct (objAddr : Nat)
  | free (base bytes : Nat)
  deriving DecidableEq, Repr

/-- Result of `Resumable::Create`: the written block contents, the address
the allocator returned (`node`), the derived `resumable` and returned
payload addresses, the requested `totalSize`, and the external calls
made. -/
structure CreateResult where
  block : FrameBlock
  baseAddr : Nat
  resumableAddr : Nat
  handleAddr : Nat
  totalSize : Nat
  events : List Event
  deriving DecidableEq, Repr

/-- The debug assertions at the head of `Resumable::Create`:
`assert(fp->resumed() == clone)`, `assert(func->isResumable())`,
`assert(func->contains(resumeOffset))`, and (inside the non-clone branch)
`assert(mayUseVV || !(func->attrs() & AttrMayUseVV))`. -/
def Resumable.CreatePre (clone mayUseVV : Bool) (fp : Frame) (resumeOffset : Nat) : Prop :=
  fp.actRec.resumed = clone ∧
  fp.actRec.func.isResumable = true ∧
  fp.actRec.func.contains resumeOffset ∧
  (mayUseVV = true ∨ fp.actRec.func.mayUseVV = false)

/-- Source: `Resumable::Create<clone, objSize, mayUseVV>(fp, numSlots, resumeAddr,
resumeOffset)`.  `allocBase` is the address `MM().objMalloc(totalSize)`
returns and `init` the (garbage) contents of that fresh memory, so fields
the code does not write keep their `init` value.  `size_t` arithmetic is
reduced modulo `2^64`. -/
def Resumable.create (clone : Bool) (objSize : Nat) (mayUseVV : Bool)
    (L : Layout) (fp : Frame) (numSlots : Nat) (resumeAddr resumeOffset : Nat)
    (allocBase : Nat) (init : FrameBlock) : CreateResult :=
  let frameSize := numSlots * L.tvSize % 2 ^ 64
  let totalSize := (L.nodeSize + frameSize + L.resumableSize + objSize) % 2 ^ 64
  let b0 : FrameBlock :=
    { init with nodeFramesize := frameSize, nodeKind := HeaderKind.resumableFrame }
  let step :=
    if clone = false then
      let b1 : FrameBlock := { b0 with locals := fp.locals.take numSlots, actRec := fp.actRec }
      let b2 : FrameBlock := { b1 with actRec := b1.actRec.setResumed }
      let evs :=
        if mayUseVV && fp.actRec.func.mayUseVV && fp.hasVarEnv then
          [Event.varEnvSuspend fp b2.actRec]
        else []
      (b2, evs)
    else
      ({ b0 with actRec := ActRec.copyFromFuncOn b0.actRec fp.actRec }, ([] : List Event))
  let b3 : FrameBlock :=
    { step.1 with
      resumeAddr := resumeAddr
      offsetAndSize := packOffsetAndSize totalSize resumeOffset }
  { block := b3
    baseAddr := allocBase
    resumableAddr := allocBase + L.nodeSize + frameSize
    handleAddr := allocBase + L.nodeSize + frameSize + L.resumableSize
    totalSize := totalSize
    events := step.2 }

/-- Result of `Resumable::Destroy`: the arguments of the `objFree` call and
the ordered external calls. -/
structure DestroyResult where
  base : Nat
  bytes : Nat
  events : List Event
  deriving DecidableEq, Repr

/-- Source: `Resumable::Destroy<T>(size, obj)`: computes
`base = (char*)(obj + 1) - size` (where `obj + 1` advances by
`sizeof(T) = tSize` bytes), runs `obj->~T()`, then
`MM().objFree(base, size)` — in that order. -/
def Resumable.destroy (size objAddr tSize : Nat) : DestroyResult :=
  { base := objAddr + tSize - size
    bytes := size
    events := [Event.destruct objAddr, Event.free (objAddr + tSize - size) size] }

/-- Modelled from the spec: a create followed by the destroy of the
resulting trailing-payload handle.  The destroy call (issued by the
wrapper object's teardown, outside this snapshot) passes the handle and
the size stored in the header at creation time — `resumable->size()` —
not a recomputed value. -/
def Resumable.createThenDestroy (clone : Bool) (objSize : Nat) (mayUseVV : Bool)
    (L : Layout) (fp : Frame) (numSlots : Nat) (resumeAddr resumeOffset : Nat)
    (allocBase : Nat) (init : FrameBlock) : CreateResult × DestroyResult :=
  let r := Resumable.create clone objSize mayUseVV L fp numSlots resumeAddr resumeOffset
    allocBase init
  (r, Resumable.destroy r.block.size r.handleAddr objSize)

/-- Number of Suspension Hand-off calls (`VarEnv::suspend`) in an event
trace. -/
def suspendCount (evs : List Event) : Nat :=
  (evs.filter fun e =>
    match e with
    | Event.varEnvSuspend _ _ => true
    | _ => false).length

end ResumableModel

/-! ### Decoding the packed header word -/

namespace ResumableModel

/-- The packed word, arithmetically: with a non-negative 32-bit offset the
bitwise-or is an addition into disjoint bit ranges. -/
theorem packOffsetAndSize_eq (t off : Nat) (h : off < 2 ^ 32) :
    packOffsetAndSize t off = t % 2 ^ 32 * 2 ^ 32 + off := by
  unfold packOffsetAndSize
  rw [Nat.shiftLeft_eq, Nat.mul_comm, ← Nat.mul_add_lt_is_or h]
  have h1 : 2 ^ 32 * t + off = 2 ^ 32 * (t % 2 ^ 32 + 2 ^ 32 * (t / 2 ^ 32)) + off := by
    rw [Nat.add_comm (t % 2 ^ 32), Nat.div_add_mod]
  rw [h1]
  have h2 : t % 2 ^ 32 < 2 ^ 32 := Nat.mod_lt _ (by norm_num)
  have h3 : 2 ^ 32 * (t % 2 ^ 32 + 2 ^ 32 * (t / 2 ^ 32)) + off
      = t % 2 ^ 32 * 2 ^ 32 + off + 2 ^ 64 * (t / 2 ^ 32) := by ring
  rw [h3, Nat.add_mul_mod_self_left, Nat.mod_eq_of_lt (by nlinarith)]

theorem lo32_pack (t off : Nat) (h : off < 2 ^ 32) :
    lo32 (packOffsetAndSize t off) = off := by
  rw [packOffsetAndSize_eq t off h]
  unfold lo32
  omega

theorem hi32_pack (t off : Nat) (h : off < 2 ^ 32) :
    hi32 (packOffsetAndSize t off) = t % 2 ^ 32 := by
  rw [packOffsetAndSize_eq t off h]
  unfold hi32
  have h2 : t % 2 ^ 32 < 2 ^ 32 := Nat.mod_lt _ (by norm_num)
  omega

end ResumableModel

namespace ResumableModel

/-- Source: `sizeof(Resumable)` decomposes as the Activation Record followed by the
spec's Header (resume address + packed word). -/
theorem resumableSize_eq (L : Layout) :
    L.resumableSize = L.actRecSize + L.headerSize := by
  simp [Layout.resumableSize, Resumable.fieldSizes, Layout.headerSize]

theorem totalSize_formula (clone : Bool) (objSize : Nat) (mayUseVV : Bool)
    (L : Layout) (fp : Frame) (numSlots resumeAddr resumeOffset allocBase : Nat)
    (init : FrameBlock)
    (hfit : L.nodeSize + numSlots * L.tvSize + L.resumableSize + objSize < 2 ^ 64) :
    (Resumable.create clone objSize mayUseVV L fp numSlots resumeAddr resumeOffset
        allocBase init).totalSize
      = L.nodeSize + numSlots * L.tvSize + L.actRecSize + L.headerSize + objSize := by
  have h := resumableSize_eq L
  simp only [Resumable.create]
  simp only [Layout.resumableSize, Resumable.fieldSizes, Layout.headerSize] at *
  omega

/-- C1: the total allocation size `Create` computes and passes to
`MM().objMalloc` is Frame-Node-size + numSlots x slot-size +
ActivationRecord-size + Header-size + trailing-payload-size, the sum of
the five regions (the hypothesis says the `size_t` sum does not wrap). -/
theorem create_totalSize (clone : Bool) (objSize : Nat) (mayUseVV : Bool)
    (L : Layout) (fp : Frame) (numSlots resumeAddr resumeOffset allocBase : Nat)
    (init : FrameBlock)
    (hfit : L.nodeSize + numSlots * L.tvSize + L.resumableSize + objSize < 2 ^ 64) :
    (Resumable.create clone objSize mayUseVV L fp numSlots resumeAddr resumeOffset
        allocBase init).totalSize
      = L.nodeSize + numSlots * L.tvSize + L.actRecSize + L.headerSize + objSize :=
  totalSize_formula clone objSize mayUseVV L fp numSlots resumeAddr resumeOffset
    allocBase init hfit

/-- C1 witness: the spec's end-to-end scenario — 3 local slots of 16 bytes
and a 40-byte trailing payload, instantiated at node size 16 and
Activation-Record size 48: total = 16 + 48 + 48 + 16 + 40 = 168. -/
theorem create_totalSize_witness :
    (Resumable.create false 40 true ⟨16, 48, 16⟩
        ⟨⟨0, 0, ⟨0, 100, true, false⟩, 0, false, 0, none⟩, [1, 2, 3]⟩
        3 7777 12 1024
        ⟨0, HeaderKind.other, [], ⟨0, 0, ⟨0, 0, false, false⟩, 0, false, 0, none⟩, 0, 0⟩).totalSize
      = 16 + 3 * 16 + 48 + 16 + 40 := by
  have h := create_totalSize false 40 true ⟨16, 48, 16⟩
    ⟨⟨0, 0, ⟨0, 100, true, false⟩, 0, false, 0, none⟩, [1, 2, 3]⟩
    3 7777 12 1024
    ⟨0, HeaderKind.other, [], ⟨0, 0, ⟨0, 0, false, false⟩, 0, false, 0, none⟩, 0, 0⟩
    (by decide)
  simpa [Layout.headerSize] using h

/-- The address at which `Create` reads the embedded Activation Record:
`resumable->actRec()` is the Resumable base plus `arOff`. -/
def CreateResult.actRecAddr (L : Layout) (r : CreateResult) : Nat :=
  r.resumableAddr + Resumable.arOff L

/-- C3: `offsetof(Resumable, m_actRec)` is 0 — the Activation Record sits at
byte offset 0 of the Resumable header, so for every handle `create`
returns, the Resumable pointer and the Activation-Record pointer
coincide with no adjustment. -/
theorem arOff_eq_zero (clone : Bool) (objSize : Nat) (mayUseVV : Bool)
    (L : Layout) (fp : Frame) (numSlots resumeAddr resumeOffset allocBase : Nat)
    (init : FrameBlock) :
    Resumable.arOff L = 0 ∧
    (Resumable.create clone objSize mayUseVV L fp numSlots resumeAddr resumeOffset
        allocBase init).actRecAddr L
      = (Resumable.create clone objSize mayUseVV L fp numSlots resumeAddr resumeOffset
        allocBase init).resumableAddr := by
  constructor
  · simp [Resumable.arOff, structOffset, Resumable.fieldSizes]
  · simp [CreateResult.actRecAddr, Resumable.arOff, structOffset, Resumable.fieldSizes]

end ResumableModel

namespace ResumableModel

/-! ### Concrete fixtures for witnesses and counterexamples -/

/-- A resumable function spanning bytecode 0 to 100, without `AttrMayUseVV`. -/
def func100 : Func := ⟨0, 100, true, false⟩

/-- A resumable function spanning bytecode 0 to 100, with `AttrMayUseVV`. -/
def func100vv : Func := ⟨0, 100, true, true⟩

/-- A non-suspended caller record for `func100`, no fallback store. -/
def ar0 : ActRec := ⟨21, 22, func100, 5, false, 23, none⟩

/-- A live caller frame with three local slots. -/
def fp0 : Frame := ⟨ar0, [1, 2, 3]⟩

/-- Garbage contents of a fresh allocation. -/
def init0 : FrameBlock :=
  ⟨99, HeaderKind.other, [9, 9, 9], ⟨91, 92, ⟨3, 4, false, false⟩, 93, false, 94, some 7⟩, 95, 96⟩

/-- Plausible x86-64 sizes: `sizeof(ResumableNode) = 16`,
`sizeof(ActRec) = 48`, `sizeof(TypedValue) = 16`. -/
def L0 : Layout := ⟨16, 48, 16⟩

/-! ### Projections of `create` -/

theorem create_block_resumeAddr (clone : Bool) (objSize : Nat) (mayUseVV : Bool)
    (L : Layout) (fp : Frame) (numSlots resumeAddr resumeOffset allocBase : Nat)
    (init : FrameBlock) :
    (Resumable.create clone objSize mayUseVV L fp numSlots resumeAddr resumeOffset
        allocBase init).block.resumeAddr = resumeAddr := by
  cases clone <;> simp [Resumable.create]

theorem create_block_offsetAndSize (clone : Bool) (objSize : Nat) (mayUseVV : Bool)
    (L : Layout) (fp : Frame) (numSlots resumeAddr resumeOffset allocBase : Nat)
    (init : FrameBlock) :
    (Resumable.create clone objSize mayUseVV L fp numSlots resumeAddr resumeOffset
        allocBase init).block.offsetAndSize
      = packOffsetAndSize
          (Resumable.create clone objSize mayUseVV L fp numSlots resumeAddr resumeOffset
            allocBase init).totalSize resumeOffset := by
  cases clone <;> simp [Resumable.create]

theorem create_block_func (clone : Bool) (objSize : Nat) (mayUseVV : Bool)
    (L : Layout) (fp : Frame) (numSlots resumeAddr resumeOffset allocBase : Nat)
    (init : FrameBlock) :
    (Resumable.create clone objSize mayUseVV L fp numSlots resumeAddr resumeOffset
        allocBase init).block.actRec.func = fp.actRec.func := by
  cases clone <;> simp [Resumable.create, ActRec.setResumed, ActRec.copyFromFuncOn]

/-! ### int32 -> size_t round trips -/

theorem sizeT_int32_id (n : Nat) (h : n < 2 ^ 31) :
    sizeTOfInt32 (int32OfBits n) = n := by
  unfold sizeTOfInt32 int32OfBits
  split <;> omega

theorem sizeT_int32_neg (n : Nat) (h1 : 2 ^ 31 ≤ n) (h2 : n < 2 ^ 32) :
    sizeTOfInt32 (int32OfBits n) = 2 ^ 64 - 2 ^ 32 + n := by
  unfold sizeTOfInt32 int32OfBits
  split <;> omega

end ResumableModel

namespace ResumableModel

theorem create_block_size (clone : Bool) (objSize : Nat) (mayUseVV : Bool)
    (L : Layout) (fp : Frame) (numSlots resumeAddr resumeOffset allocBase : Nat)
    (init : FrameBlock) (hoff : resumeOffset < 2 ^ 32) :
    (Resumable.create clone objSize mayUseVV L fp numSlots resumeAddr resumeOffset
        allocBase init).block.size
      = sizeTOfInt32 (int32OfBits
          ((Resumable.create clone objSize mayUseVV L fp numSlots resumeAddr resumeOffset
            allocBase init).totalSize % 2 ^ 32)) := by
  rw [FrameBlock.size, FrameBlock.m_size, create_block_offsetAndSize,
    hi32_pack _ _ hoff]

/-- C4 counterexample: a `create` whose resume offset 12 is inside the
function's bounds but whose computed total size is `2^31 + 80`; the
stored 32-bit size field sign-extends to a huge `size_t`, so `size()`
does not equal the computed total — the claim's equality fails. -/
theorem create_header_decode_cex :
    func100.contains 12 ∧
    (Resumable.create false (2 ^ 31) true L0 fp0 0 7777 12 1024 init0).block.size
      ≠ (Resumable.create false (2 ^ 31) true L0 fp0 0 7777 12 1024 init0).totalSize := by
  decide

/-- C4 (amended): for every `create` with resume address `a` and resume
offset `o` within the function's bytecode bounds, *and whose computed
total allocation size is below `2^31`*, the header satisfies
`resumeAddr() = a` (unmodified, with no hypothesis on `a`),
`resumeOffset() = o` (the packed word decodes the offset back), and
`size()` equals the computed total allocation size. -/
theorem create_header_decode (clone : Bool) (objSize : Nat) (mayUseVV : Bool)
    (L : Layout) (fp : Frame) (numSlots resumeAddr resumeOffset allocBase : Nat)
    (init : FrameBlock)
    (hcontains : fp.actRec.func.contains resumeOffset)
    (hoff : resumeOffset < 2 ^ 31)
    (hfit : L.nodeSize + numSlots * L.tvSize + L.resumableSize + objSize < 2 ^ 31) :
    (Resumable.create clone objSize mayUseVV L fp numSlots resumeAddr resumeOffset
        allocBase init).block.resumeAddr = resumeAddr ∧
    (Resumable.create clone objSize mayUseVV L fp numSlots resumeAddr resumeOffset
        allocBase init).block.resumeOffsetChecked = some resumeOffset ∧
    (Resumable.create clone objSize mayUseVV L fp numSlots resumeAddr resumeOffset
        allocBase init).block.size
      = (Resumable.create clone objSize mayUseVV L fp numSlots resumeAddr resumeOffset
        allocBase init).totalSize := by
  have hfit64 : L.nodeSize + numSlots * L.tvSize + L.resumableSize + objSize < 2 ^ 64 := by
    omega
  have htot := totalSize_formula clone objSize mayUseVV L fp numSlots resumeAddr
    resumeOffset allocBase init hfit64
  have hres := resumableSize_eq L
  have htot31 : (Resumable.create clone objSize mayUseVV L fp numSlots resumeAddr
      resumeOffset allocBase init).totalSize < 2 ^ 31 := by omega
  refine ⟨create_block_resumeAddr _ _ _ _ _ _ _ _ _ _, ?_, ?_⟩
  · have hmo : (Resumable.create clone objSize mayUseVV L fp numSlots resumeAddr
        resumeOffset allocBase init).block.m_resumeOffset = resumeOffset := by
      rw [FrameBlock.m_resumeOffset, create_block_offsetAndSize,
        lo32_pack _ _ (by omega)]
    rw [FrameBlock.resumeOffsetChecked, hmo, create_block_func]
    exact if_pos hcontains
  · rw [create_block_size _ _ _ _ _ _ _ _ _ _ (by omega),
      Nat.mod_eq_of_lt (by omega), sizeT_int32_id _ htot31]

/-- C4 witness: the spec scenario — payload 40, 3 slots, offset 12 in a
function spanning 0 to 100 — where all three header equalities hold. -/
theorem create_header_decode_witness :
    (Resumable.create false 40 true L0 fp0 3 7777 12 1024 init0).block.resumeAddr = 7777 ∧
    (Resumable.create false 40 true L0 fp0 3 7777 12 1024 init0).block.resumeOffsetChecked
      = some 12 ∧
    (Resumable.create false 40 true L0 fp0 3 7777 12 1024 init0).block.size
      = (Resumable.create false 40 true L0 fp0 3 7777 12 1024 init0).totalSize :=
  create_header_decode false 40 true L0 fp0 3 7777 12 1024 init0
    (by decide) (by decide) (by decide)

end ResumableModel

namespace ResumableModel

/-- C10 counterexample: the "only when the total is less than `2^31`"
direction fails.  For a (degenerate) payload size making the `size_t`
total exactly `2^64 - 2^31`, the truncated-and-sign-extended stored size
reproduces the total even though it is at least `2^31`. -/
theorem create_size_truncation_cex :
    (Resumable.create false (2 ^ 64 - 2 ^ 31 - 80) true L0 fp0 0 7777 12 1024 init0).block.size
      = (Resumable.create false (2 ^ 64 - 2 ^ 31 - 80) true L0 fp0 0 7777 12 1024
          init0).totalSize ∧
    ¬ (Resumable.create false (2 ^ 64 - 2 ^ 31 - 80) true L0 fp0 0 7777 12 1024
        init0).totalSize < 2 ^ 31 := by
  decide

/-- C10 (amended): the stored allocation size is a signed 32-bit field
written by shifting the total left by 32 bits; `create` performs no
magnitude check.  `size()` reproduces the computed total whenever the
total is below `2^31`, and for every total in `[2^31, 2^64 - 2^31)` the
stored size is silently truncated or negative, so `size()` differs from
the total (for totals at least `2^64 - 2^31` the wrapped sign-extension
can coincide with the total again). -/
theorem create_size_truncation (clone : Bool) (objSize : Nat) (mayUseVV : Bool)
    (L : Layout) (fp : Frame) (numSlots resumeAddr resumeOffset allocBase : Nat)
    (init : FrameBlock) (hoff : resumeOffset < 2 ^ 31) :
    ((Resumable.create clone objSize mayUseVV L fp numSlots resumeAddr resumeOffset
        allocBase init).totalSize < 2 ^ 31 →
      (Resumable.create clone objSize mayUseVV L fp numSlots resumeAddr resumeOffset
        allocBase init).block.size
        = (Resumable.create clone objSize mayUseVV L fp numSlots resumeAddr resumeOffset
          allocBase init).totalSize) ∧
    (2 ^ 31 ≤ (Resumable.create clone objSize mayUseVV L fp numSlots resumeAddr resumeOffset
        allocBase init).totalSize →
      (Resumable.create clone objSize mayUseVV L fp numSlots resumeAddr resumeOffset
        allocBase init).totalSize < 2 ^ 64 - 2 ^ 31 →
      (Resumable.create clone objSize mayUseVV L fp numSlots resumeAddr resumeOffset
        allocBase init).block.size
        ≠ (Resumable.create clone objSize mayUseVV L fp numSlots resumeAddr resumeOffset
          allocBase init).totalSize) := by
  have hsz := create_block_size clone objSize mayUseVV L fp numSlots resumeAddr
    resumeOffset allocBase init (by omega)
  have ht64 : (Resumable.create clone objSize mayUseVV L fp numSlots resumeAddr
      resumeOffset allocBase init).totalSize < 2 ^ 64 := by
    simp only [Resumable.create]
    omega
  constructor
  · intro h31
    rw [hsz, Nat.mod_eq_of_lt (by omega), sizeT_int32_id _ h31]
  · intro hge hlt
    rw [hsz]
    rcases Nat.lt_or_ge ((Resumable.create clone objSize mayUseVV L fp numSlots resumeAddr
        resumeOffset allocBase init).totalSize % 2 ^ 32) (2 ^ 31) with hlo | hhi
    · rw [sizeT_int32_id _ hlo]
      omega
    · rw [sizeT_int32_neg _ hhi (by omega)]
      omega

/-- C10 witness: a small total (the spec scenario, total 168) is reproduced
by `size()`, while a total of `2^31 + 96` is not. -/
theorem create_size_truncation_witness :
    (Resumable.create false 40 true L0 fp0 3 7777 12 1024 init0).block.size
      = (Resumable.create false 40 true L0 fp0 3 7777 12 1024 init0).totalSize ∧
    (Resumable.create false (2 ^ 31 + 16) true L0 fp0 0 7777 12 1024 init0).block.size
      ≠ (Resumable.create false (2 ^ 31 + 16) true L0 fp0 0 7777 12 1024 init0).totalSize := by
  constructor
  · exact (create_size_truncation false 40 true L0 fp0 3 7777 12 1024 init0
      (by decide)).1 (by decide)
  · exact (create_size_truncation false (2 ^ 31 + 16) true L0 fp0 0 7777 12 1024 init0
      (by decide)).2 (by decide) (by decide)

end ResumableModel

namespace ResumableModel

theorem create_handleAddr (clone : Bool) (objSize : Nat) (mayUseVV : Bool)
    (L : Layout) (fp : Frame) (numSlots resumeAddr resumeOffset allocBase : Nat)
    (init : FrameBlock) :
    (Resumable.create clone objSize mayUseVV L fp numSlots resumeAddr resumeOffset
        allocBase init).handleAddr
      = allocBase + L.nodeSize + numSlots * L.tvSize % 2 ^ 64 + L.resumableSize := by
  cases clone <;> simp [Resumable.create]

/-- C2: for every (slot count, payload size) pair whose total fits the
header's 31-bit size field, `create` followed by `destroy` of the
resulting handle releases exactly the byte range `create` requested: the
base passed to `objFree` is the pointer `objMalloc` returned, the size
passed is the total `create` computed, and the trailing payload's
destructor runs before the bytes are returned to the allocator (it is
the first event, the free the second). -/
theorem create_destroy_roundtrip (clone : Bool) (objSize : Nat) (mayUseVV : Bool)
    (L : Layout) (fp : Frame) (numSlots resumeAddr resumeOffset allocBase : Nat)
    (init : FrameBlock)
    (hoff : resumeOffset < 2 ^ 31)
    (hfit : L.nodeSize + numSlots * L.tvSize + L.resumableSize + objSize < 2 ^ 31) :
    (Resumable.createThenDestroy clone objSize mayUseVV L fp numSlots resumeAddr
        resumeOffset allocBase init).2.base = allocBase ∧
    (Resumable.createThenDestroy clone objSize mayUseVV L fp numSlots resumeAddr
        resumeOffset allocBase init).2.bytes
      = (Resumable.createThenDestroy clone objSize mayUseVV L fp numSlots resumeAddr
        resumeOffset allocBase init).1.totalSize ∧
    (Resumable.createThenDestroy clone objSize mayUseVV L fp numSlots resumeAddr
        resumeOffset allocBase init).2.events
      = [Event.destruct (Resumable.createThenDestroy clone objSize mayUseVV L fp numSlots
          resumeAddr resumeOffset allocBase init).1.handleAddr,
         Event.free allocBase
           (Resumable.createThenDestroy clone objSize mayUseVV L fp numSlots resumeAddr
             resumeOffset allocBase init).1.totalSize] := by
  have hfit64 : L.nodeSize + numSlots * L.tvSize + L.resumableSize + objSize < 2 ^ 64 := by
    omega
  have htot := totalSize_formula clone objSize mayUseVV L fp numSlots resumeAddr
    resumeOffset allocBase init hfit64
  have hres := resumableSize_eq L
  have htot31 : (Resumable.create clone objSize mayUseVV L fp numSlots resumeAddr
      resumeOffset allocBase init).totalSize < 2 ^ 31 := by omega
  have hsize : (Resumable.create clone objSize mayUseVV L fp numSlots resumeAddr
      resumeOffset allocBase init).block.size
      = (Resumable.create clone objSize mayUseVV L fp numSlots resumeAddr
        resumeOffset allocBase init).totalSize := by
    rw [create_block_size clone objSize mayUseVV L fp numSlots resumeAddr resumeOffset
        allocBase init (by omega),
      Nat.mod_eq_of_lt (by omega), sizeT_int32_id _ htot31]
  have hhandle := create_handleAddr clone objSize mayUseVV L fp numSlots resumeAddr
    resumeOffset allocBase init
  have hframe : numSlots * L.tvSize % 2 ^ 64 = numSlots * L.tvSize :=
    Nat.mod_eq_of_lt (by omega)
  simp only [Resumable.createThenDestroy, Resumable.destroy, hsize]
  refine ⟨?_, trivial, ?_⟩
  · rw [hhandle, htot, hframe]
    omega
  · rw [hhandle, htot, hframe]
    have hbase : allocBase + L.nodeSize + numSlots * L.tvSize + L.resumableSize + objSize
        - (L.nodeSize + numSlots * L.tvSize + L.actRecSize + L.headerSize + objSize)
        = allocBase := by omega
    rw [hbase]

/-- C2 witness: the spec scenario (3 slots, payload 40) allocated at base
1024 — destroy frees `(1024, 168)` after the payload destructor. -/
theorem create_destroy_roundtrip_witness :
    (Resumable.createThenDestroy false 40 true L0 fp0 3 7777 12 1024 init0).2.base = 1024 ∧
    (Resumable.createThenDestroy false 40 true L0 fp0 3 7777 12 1024 init0).2.bytes
      = (Resumable.createThenDestroy false 40 true L0 fp0 3 7777 12 1024 init0).1.totalSize ∧
    (Resumable.createThenDestroy false 40 true L0 fp0 3 7777 12 1024 init0).2.events
      = [Event.destruct
           (Resumable.createThenDestroy false 40 true L0 fp0 3 7777 12 1024
             init0).1.handleAddr,
         Event.free 1024
           (Resumable.createThenDestroy false 40 true L0 fp0 3 7777 12 1024
             init0).1.totalSize] :=
  create_destroy_roundtrip false 40 true L0 fp0 3 7777 12 1024 init0
    (by decide) (by decide)

end ResumableModel

namespace ResumableModel

/-- A suspended caller record for `func100` (clone source). -/
def arS : ActRec := ⟨31, 32, func100, 6, true, 33, some 2⟩

/-- A suspended caller frame (clone source). -/
def fpS : Frame := ⟨arS, [4, 5, 6]⟩

/-- C5: in clone mode from a suspended source frame, the new Activation
Record takes every field from `m_func` onward (function identity,
return-offset word, suspended flag, this/class, fallback-store pointer)
from the source, while the two linkage fields `m_sfp` and `m_savedRip`
keep the fresh allocation's bytes — `Create` never writes them.  The
locals region also keeps the allocation's bytes and no Suspension
Hand-off event is emitted. -/
theorem create_clone_copies_from_func (objSize : Nat) (mayUseVV : Bool)
    (L : Layout) (fp : Frame) (numSlots resumeAddr resumeOffset allocBase : Nat)
    (init : FrameBlock)
    (hres : fp.actRec.resumed = true) :
    (Resumable.create true objSize mayUseVV L fp numSlots resumeAddr resumeOffset
        allocBase init).block.actRec.func = fp.actRec.func ∧
    (Resumable.create true objSize mayUseVV L fp numSlots resumeAddr resumeOffset
        allocBase init).block.actRec.soff = fp.actRec.soff ∧
    (Resumable.create true objSize mayUseVV L fp numSlots resumeAddr resumeOffset
        allocBase init).block.actRec.resumed = fp.actRec.resumed ∧
    (Resumable.create true objSize mayUseVV L fp numSlots resumeAddr resumeOffset
        allocBase init).block.actRec.thisOrCls = fp.actRec.thisOrCls ∧
    (Resumable.create true objSize mayUseVV L fp numSlots resumeAddr resumeOffset
        allocBase init).block.actRec.varEnv = fp.actRec.varEnv ∧
    (Resumable.create true objSize mayUseVV L fp numSlots resumeAddr resumeOffset
        allocBase init).block.actRec.sfp = init.actRec.sfp ∧
    (Resumable.create true objSize mayUseVV L fp numSlots resumeAddr resumeOffset
        allocBase init).block.actRec.savedRip = init.actRec.savedRip ∧
    (Resumable.create true objSize mayUseVV L fp numSlots resumeAddr resumeOffset
        allocBase init).block.locals = init.locals ∧
    (Resumable.create true objSize mayUseVV L fp numSlots resumeAddr resumeOffset
        allocBase init).events = [] := by
  simp [Resumable.create, ActRec.copyFromFuncOn]

/-- C5 witness: cloning a suspended frame for `func100` reproduces `m_func`
and the suspended flag and leaves linkage, locals and events untouched. -/
theorem create_clone_copies_from_func_witness :
    (Resumable.create true 40 true L0 fpS 3 7777 12 1024 init0).block.actRec.func
      = fpS.actRec.func ∧
    (Resumable.create true 40 true L0 fpS 3 7777 12 1024 init0).block.actRec.soff
      = fpS.actRec.soff ∧
    (Resumable.create true 40 true L0 fpS 3 7777 12 1024 init0).block.actRec.resumed
      = fpS.actRec.resumed ∧
    (Resumable.create true 40 true L0 fpS 3 7777 12 1024 init0).block.actRec.thisOrCls
      = fpS.actRec.thisOrCls ∧
    (Resumable.create true 40 true L0 fpS 3 7777 12 1024 init0).block.actRec.varEnv
      = fpS.actRec.varEnv ∧
    (Resumable.create true 40 true L0 fpS 3 7777 12 1024 init0).block.actRec.sfp
      = init0.actRec.sfp ∧
    (Resumable.create true 40 true L0 fpS 3 7777 12 1024 init0).block.actRec.savedRip
      = init0.actRec.savedRip ∧
    (Resumable.create true 40 true L0 fpS 3 7777 12 1024 init0).block.locals
      = init0.locals ∧
    (Resumable.create true 40 true L0 fpS 3 7777 12 1024 init0).events = [] :=
  create_clone_copies_from_func 40 true L0 fpS 3 7777 12 1024 init0 (by decide)

/-- C6: in non-clone mode from a non-suspended caller frame, the caller's
Activation Record and its entire locals region (frameSize bytes, i.e.
`numSlots` slots) are copied verbatim into the new block, then the
suspended flag is set on the copy — the copied record equals the source
except for that flag. -/
theorem create_fresh_copy (objSize : Nat) (mayUseVV : Bool)
    (L : Layout) (fp : Frame) (numSlots resumeAddr resumeOffset allocBase : Nat)
    (init : FrameBlock)
    (hres : fp.actRec.resumed = false)
    (hlen : fp.locals.length = numSlots) :
    (Resumable.create false objSize mayUseVV L fp numSlots resumeAddr resumeOffset
        allocBase init).block.locals = fp.locals ∧
    (Resumable.create false objSize mayUseVV L fp numSlots resumeAddr resumeOffset
        allocBase init).block.actRec = { fp.actRec with resumed := true } := by
  constructor
  · simp [Resumable.create, ← hlen]
  · simp [Resumable.create, ActRec.setResumed]

/-- C6 witness: a fresh suspend of `fp0` (three locals `[1,2,3]`) copies
locals and record and sets the suspended flag. -/
theorem create_fresh_copy_witness :
    (Resumable.create false 40 true L0 fp0 3 7777 12 1024 init0).block.locals
      = fp0.locals ∧
    (Resumable.create false 40 true L0 fp0 3 7777 12 1024 init0).block.actRec
      = { fp0.actRec with resumed := true } :=
  create_fresh_copy 40 true L0 fp0 3 7777 12 1024 init0 (by decide) (by decide)

/-- C7: the Suspension Hand-off (`VarEnv::suspend`) is invoked exactly once
per non-clone `create` when the function has `AttrMayUseVV` and the
caller frame has a variable environment present, and zero times
otherwise; it is never invoked on the clone path.  The hypothesis is the
code's own assertion `assert(mayUseVV || !(func->attrs() & AttrMayUseVV))`. -/
theorem varenv_suspend_count (clone : Bool) (objSize : Nat) (mayUseVV : Bool)
    (L : Layout) (fp : Frame) (numSlots resumeAddr resumeOffset allocBase : Nat)
    (init : FrameBlock)
    (hassert : mayUseVV = true ∨ fp.actRec.func.mayUseVV = false) :
    suspendCount (Resumable.create clone objSize mayUseVV L fp numSlots resumeAddr
        resumeOffset allocBase init).events
      = if clone = false ∧ fp.actRec.func.mayUseVV = true ∧ fp.hasVarEnv = true
        then 1 else 0 := by
  cases clone with
  | false =>
    rcases hassert with h | h
    · subst h
      by_cases ha : fp.actRec.func.mayUseVV = true <;>
        by_cases hv : fp.hasVarEnv = true <;>
        simp [Resumable.create, suspendCount, ha, hv]
    · by_cases hv : fp.hasVarEnv = true <;>
        simp [Resumable.create, suspendCount, h, hv]
  | true => simp [Resumable.create, suspendCount]

/-- C7 witness: a non-clone `create` for a function with `AttrMayUseVV`
whose caller has a variable environment emits exactly one hand-off. -/
theorem varenv_suspend_count_witness :
    suspendCount (Resumable.create false 40 true L0
        ⟨⟨41, 42, func100vv, 5, false, 43, some 9⟩, [1, 2]⟩
        2 7777 12 1024 init0).events = 1 := by
  rw [varenv_suspend_count false 40 true L0
    ⟨⟨41, 42, func100vv, 5, false, 43, some 9⟩, [1, 2]⟩
    2 7777 12 1024 init0 (Or.inl rfl)]
  decide

end ResumableModel

namespace ResumableModel

/-- C8: `resumeOffset()` is a pure accessor: when the stored offset lies
within the owning function's bytecode bounds the defensive assertion
passes and the stored offset is returned exactly; when it lies outside,
the bounds-violation fault (`none`) is produced instead of a value; and
`setResumeAddr` validates the same bound and faults rather than storing
an out-of-bounds offset. -/
theorem resumeOffset_checked_spec (b : FrameBlock) (addr off : Nat) :
    (b.actRec.func.contains b.m_resumeOffset →
      b.resumeOffsetChecked = some b.m_resumeOffset) ∧
    (¬ b.actRec.func.contains b.m_resumeOffset → b.resumeOffsetChecked = none) ∧
    (¬ b.actRec.func.contains off → b.setResumeAddrChecked addr off = none) := by
  refine ⟨fun h => ?_, fun h => ?_, fun h => ?_⟩
  · rw [FrameBlock.resumeOffsetChecked, if_pos h]
  · rw [FrameBlock.resumeOffsetChecked, if_neg h]
  · rw [FrameBlock.setResumeAddrChecked, if_neg h]

/-- A header block for `func100` storing offset 12 (in bounds 0 to 100)
and size 160. -/
def blkIn : FrameBlock := ⟨99, HeaderKind.resumableFrame, [1, 2, 3], arS, 7777, 160 * 2 ^ 32 + 12⟩

/-- A header block for `func100` whose stored offset 200 is out of bounds. -/
def blkOut : FrameBlock := ⟨99, HeaderKind.resumableFrame, [1, 2, 3], arS, 7777, 160 * 2 ^ 32 + 200⟩

/-- C8 witness: offset 12 in bounds 0 to 100 is returned exactly; a stored
offset 200 faults; `setResumeAddr` with offset 555 faults. -/
theorem resumeOffset_checked_spec_witness :
    blkIn.resumeOffsetChecked = some 12 ∧
    blkOut.resumeOffsetChecked = none ∧
    blkIn.setResumeAddrChecked 8888 555 = none := by
  refine ⟨?_, ?_, ?_⟩
  · have h := (resumeOffset_checked_spec blkIn 8888 555).1 (by decide)
    rw [h]
    decide
  · exact (resumeOffset_checked_spec blkOut 8888 555).2.1 (by decide)
  · exact (resumeOffset_checked_spec blkIn 8888 555).2.2 (by decide)

theorem setResumeAddr_some (b : FrameBlock) (a o : Nat)
    (h : b.actRec.func.contains o) :
    b.setResumeAddrChecked a o
      = some { b with resumeAddr := a,
                      offsetAndSize := hi32 b.offsetAndSize * 2 ^ 32 + o % 2 ^ 32 } := by
  rw [FrameBlock.setResumeAddrChecked, if_pos h]

/-- A successful `setResumeAddr` leaves the Activation Record alone, stores
the address, overwrites only the low 32 bits of the packed word, and
preserves `size()`. -/
theorem set_success (b : FrameBlock) (a o : Nat) (h : b.actRec.func.contains o) :
    ∃ b', b.setResumeAddrChecked a o = some b' ∧ b'.actRec = b.actRec ∧
      b'.resumeAddr = a ∧ b'.m_resumeOffset = o % 2 ^ 32 ∧ b'.size = b.size := by
  refine ⟨_, setResumeAddr_some b a o h, rfl, rfl, ?_, ?_⟩
  · show lo32 (hi32 b.offsetAndSize * 2 ^ 32 + o % 2 ^ 32) = o % 2 ^ 32
    unfold lo32 hi32
    omega
  · show sizeTOfInt32 (int32OfBits (hi32 (hi32 b.offsetAndSize * 2 ^ 32 + o % 2 ^ 32)))
      = sizeTOfInt32 (int32OfBits (hi32 b.offsetAndSize))
    have : hi32 (hi32 b.offsetAndSize * 2 ^ 32 + o % 2 ^ 32) = hi32 b.offsetAndSize := by
      unfold hi32
      omega
    rw [this]

/-- C9: `setResumeAddr` is last-write-wins and size-preserving: two
successive in-bounds calls with (a1, o1) then (a2, o2) both succeed, the
final header's `resumeOffset()` returns o2 and `resumeAddr()` is a2, and
neither call changes `size()` — the offset shares the machine word with
the size, but only the low 32 bits are overwritten. -/
theorem setResumeAddr_last_write_wins (b : FrameBlock) (a1 o1 a2 o2 : Nat)
    (h1 : b.actRec.func.contains o1) (h2 : b.actRec.func.contains o2)
    (ho2 : o2 < 2 ^ 32) :
    ∃ b1 b2, b.setResumeAddrChecked a1 o1 = some b1 ∧
      b1.setResumeAddrChecked a2 o2 = some b2 ∧
      b2.resumeOffsetChecked = some o2 ∧
      b2.resumeAddr = a2 ∧
      b1.size = b.size ∧
      b2.size = b.size := by
  obtain ⟨b1, e1, hact1, haddr1, hmo1, hsz1⟩ := set_success b a1 o1 h1
  obtain ⟨b2, e2, hact2, haddr2, hmo2, hsz2⟩ :=
    set_success b1 a2 o2 (by rw [hact1]; exact h2)
  refine ⟨b1, b2, e1, e2, ?_, haddr2, hsz1, by rw [hsz2, hsz1]⟩
  rw [FrameBlock.resumeOffsetChecked, hmo2, hact2, hact1, Nat.mod_eq_of_lt ho2]
  exact if_pos h2

/-- C9 witness: the spec scenario — offsets 12 then 55, both inside bounds
0 to 100; the second call wins and the stored size 160 survives both. -/
theorem setResumeAddr_last_write_wins_witness :
    ∃ b1 b2, blkIn.setResumeAddrChecked 8888 12 = some b1 ∧
      b1.setResumeAddrChecked 9999 55 = some b2 ∧
      b2.resumeOffsetChecked = some 55 ∧
      b2.resumeAddr = 9999 ∧
      b1.size = blkIn.size ∧
      b2.size = blkIn.size :=
  setResumeAddr_last_write_wins blkIn 8888 12 9999 55 (by decide) (by decide) (by decide)

end ResumableModel
